import Mathlib

/-!
Shallow embedding of the weather-bot dialogue core (`src/bot.py`).

The chat transport and the HTTP provider are external collaborators; they are
modelled as explicit inputs: an `Env` records, for every city string, the
geocoding HTTP response, and for every coordinate pair, the weather HTTP
response.  Handlers become pure functions from an inbound event plus the
per-user state map to the list of outbound messages and the new state map.

Numeric JSON payloads are modelled with `Nat`/`Int`.  The one place the source
performs float arithmetic, `int(pressure * 0.75)`, is embedded as exact
rational truncation `3 * p / 4`: for every pressure value below 2^51 hPa the
double computation `p * 0.75` is exact, so the two agree on the provider's
whole range.
-/

/-- `BotState.mode` values (the string constants of `bot.py`). -/
inductive Mode
  | greeting
  | city_choice
  | other_city
  | sun_question
deriving DecidableEq, Repr

/-- Per-user dialogue state (`class BotState`, bot.py lines 9-14). -/
structure BotState where
  mode : Mode
  sunrise : String
  sunset : String
deriving DecidableEq, Repr

/-- The process-wide `user_states` dict, as a map from user id to state. -/
def StateMap : Type := Nat → Option BotState

/-- The empty `user_states` mapping at process start. -/
def emptyStates : StateMap := fun _ => none

/-- `user_states[user_id] = s` (dict insertion / in-place mutation). -/
def setState (m : StateMap) (uid : Nat) (s : BotState) : StateMap :=
  fun u => if u = uid then some s else m u

/-- `get_user_state` (bot.py lines 20-24): return the stored state, creating a
fresh `{mode: greeting, sunrise: "", sunset: ""}` entry on first contact. -/
def get_user_state (m : StateMap) (uid : Nat) : BotState × StateMap :=
  match m uid with
  | some s => (s, m)
  | none => (⟨Mode.greeting, "", ""⟩, setState m uid ⟨Mode.greeting, "", ""⟩)

/-- Outbound transport effects (`bot.send_photo`, `bot.send_message`, with or
without an inline keyboard; buttons are label/callback pairs). -/
inductive Output
  | sendPhoto (chatId : Nat) (url : String)
  | sendText (chatId : Nat) (text : String)
  | sendTextWithButtons (chatId : Nat) (text : String)
      (buttons : List (String × String))
deriving DecidableEq, Repr

/-- An HTTP response: status code plus parsed JSON body. -/
structure HttpResp (α : Type) where
  status : Nat
  body : α
deriving DecidableEq, Repr

/-- One element of the geocoding response array; `lat`/`lon` are `Option`
because a JSON object may lack the key (Python raises `KeyError`). -/
structure GeoEntry where
  lat : Option Int
  lon : Option Int
deriving DecidableEq, Repr

/-- One element of the `weather` array of the weather response. -/
structure WeatherEntry where
  icon : Option String
deriving DecidableEq, Repr

/-- The `main` substructure of the weather response. -/
structure MainData where
  temp : Option Int
  pressure : Option Nat
deriving DecidableEq, Repr

/-- The `wind` substructure of the weather response. -/
structure WindData where
  speed : Option Int
deriving DecidableEq, Repr

/-- The `sys` substructure of the weather response. -/
structure SysData where
  sunrise : Option Nat
  sunset : Option Nat
deriving DecidableEq, Repr

/-- The weather endpoint's JSON body; every key optional, mirroring the
source's defensive `.get` accesses. -/
structure WeatherBody where
  weather : Option (List WeatherEntry)
  main : Option MainData
  wind : Option WindData
  sys : Option SysData
  timezone : Option Int
deriving DecidableEq, Repr

/-- The external HTTP provider: geocoding response per city string, weather
response per coordinate pair. -/
structure Env where
  geo : String → HttpResp (List GeoEntry)
  weather : Int → Int → HttpResp WeatherBody

/-- The exceptions `send_weather`'s try block can raise: the two explicit
`ValueError`s of `fetch_geo_data`, the `ValueError` of `fetch_weather_data`,
the `KeyError`s for `geo_data['lat']`, `geo_data['lon']`,
`weather['weather']`, and the `IndexError` for `weather['weather'][0]`. -/
inductive BotError
  | geoProvider
  | notFound
  | weatherProvider
  | keyLat
  | keyLon
  | keyWeather
  | indexError
deriving DecidableEq, Repr

/-- `str(error)` for each modelled exception. -/
def errMessage : BotError → String
  | BotError.geoProvider => "Ошибка получения геоданных"
  | BotError.notFound => "Город не найден"
  | BotError.weatherProvider => "Ошибка получения погоды"
  | BotError.keyLat => "\x27lat\x27"
  | BotError.keyLon => "\x27lon\x27"
  | BotError.keyWeather => "\x27weather\x27"
  | BotError.indexError => "list index out of range"

/-- `fetch_geo_data` (bot.py lines 34-48): non-200 status raises the
provider-error `ValueError`; an empty result array raises the not-found
`ValueError`; otherwise the first array element is returned. -/
def fetch_geo_data (resp : HttpResp (List GeoEntry)) : Except BotError GeoEntry :=
  if resp.status ≠ 200 then Except.error BotError.geoProvider
  else
    match resp.body with
    | [] => Except.error BotError.notFound
    | e :: _ => Except.ok e

/-- `fetch_weather_data` (bot.py lines 51-60): non-200 status raises; else the
JSON body is returned. -/
def fetch_weather_data (resp : HttpResp WeatherBody) : Except BotError WeatherBody :=
  if resp.status ≠ 200 then Except.error BotError.weatherProvider
  else Except.ok resp.body

/-- `int(main_data.get('pressure', 0) * 0.75)` (bot.py line 87): hPa to mmHg
by truncation.  Exact for the double arithmetic whenever `3 * p < 2^53`. -/
def pressureDisplay (p : Nat) : Nat := 3 * p / 4

/-- Rendering of `main.temp` with the `'N/A'` default (bot.py line 86). -/
def tempStr : Option Int → String
  | some t => toString t
  | none => "N/A"

/-- Rendering of `wind.speed` with the `'N/A'` default (bot.py line 88). -/
def windStr : Option Int → String
  | some w => toString w
  | none => "N/A"

/-- Two-digit zero padding, as in `strftime` fields. -/
def pad2 (n : Nat) : String :=
  if n < 10 then "0" ++ toString n else toString n

/-- `datetime.utcfromtimestamp(t).strftime('%H:%M')` (bot.py lines 102-108):
the wall-clock `HH:MM` of an epoch instant, with floor semantics on negative
timestamps as on POSIX `utcfromtimestamp`. -/
def formatTime (t : Int) : String :=
  let s := (Int.fmod t 86400).toNat
  pad2 (s / 3600) ++ ":" ++ pad2 (s % 3600 / 60)

/-- The icon URL built at bot.py line 79. -/
def iconUrl (body : WeatherBody) : String :=
  let icon_code :=
    (((body.weather.getD []).headD ⟨none⟩).icon).getD ""
  "http://openweathermap.org/img/wn/" ++ icon_code ++ "@4x.png"

/-- The formatted metrics message (bot.py lines 82-94). -/
def weatherMessage (body : WeatherBody) : String :=
  let main_data := body.main.getD ⟨none, none⟩
  let wind_data := body.wind.getD ⟨none⟩
  "🌡 Температура: " ++ tempStr main_data.temp ++ "°C\n"
    ++ "📉 Давление: " ++ toString (pressureDisplay (main_data.pressure.getD 0))
    ++ " мм рт.ст.\n"
    ++ "🌪 Ветер: " ++ windStr wind_data.speed ++ " м/с"

/-- The formatted sunrise string stored at bot.py lines 102-104. -/
def sunriseOf (body : WeatherBody) : String :=
  formatTime (((body.sys.getD ⟨none, none⟩).sunrise.getD 0 : Int)
    + body.timezone.getD 0)

/-- The formatted sunset string stored at bot.py lines 106-108. -/
def sunsetOf (body : WeatherBody) : String :=
  formatTime (((body.sys.getD ⟨none, none⟩).sunset.getD 0 : Int)
    + body.timezone.getD 0)

/-- The yes/no/start keyboard of bot.py lines 111-116. -/
def sunKeyboard : List (String × String) :=
  [("Да ✅", "yes"), ("Нет ❌", "no"), ("🔄 Начать заново", "start")]

/-- The try block of `send_weather` (bot.py lines 65-122): geocode, fetch
weather, emit icon photo, metrics message and the sun-question prompt, store
the formatted sunrise/sunset in the user's state and set mode
`sun_question`.  Any raised exception is the `Except.error` value. -/
def send_weather_try (env : Env) (city : String) (chatId uid : Nat)
    (m : StateMap) : Except BotError (List Output × StateMap) :=
  match fetch_geo_data (env.geo city) with
  | Except.error e => Except.error e
  | Except.ok geo_data =>
    match geo_data.lat with
    | none => Except.error BotError.keyLat
    | some lat =>
      match geo_data.lon with
      | none => Except.error BotError.keyLon
      | some lon =>
        match fetch_weather_data (env.weather lat lon) with
        | Except.error e => Except.error e
        | Except.ok weather =>
          match weather.weather with
          | none => Except.error BotError.keyWeather
          | some [] => Except.error BotError.indexError
          | some (_ :: _) =>
            let st := get_user_state m uid
            Except.ok
              ([Output.sendPhoto chatId (iconUrl weather),
                Output.sendText chatId (weatherMessage weather),
                Output.sendTextWithButtons chatId
                  "Показать время рассвета и заката?" sunKeyboard],
               setState st.2 uid { st.1 with
                 sunrise := sunriseOf weather
                 sunset := sunsetOf weather
                 mode := Mode.sun_question })

/-- The user-facing failure message chosen at bot.py lines 125-127: the
not-found text exactly when `str(error)` is the not-found `ValueError`
message, the generic apology otherwise. -/
def errorReply (e : BotError) : String :=
  if errMessage e = "Город не найден" then "🏙 Город не найден, попробуйте другой"
  else "😢 Что-то пошло не так. Попробуйте другой город"

/-- `send_weather` (bot.py lines 63-131): run the workflow; on any exception
emit a single failure message with one retry/"start" button and leave the
state map untouched. -/
def send_weather (env : Env) (city : String) (chatId uid : Nat)
    (m : StateMap) : List Output × StateMap :=
  match send_weather_try env city chatId uid m with
  | Except.ok r => r
  | Except.error e =>
      ([Output.sendTextWithButtons chatId (errorReply e)
          [("🔄 Попробовать снова", "start")]], m)

/-- The fixed city menu of `start_command` (bot.py lines 140-147). -/
def cities : List (String × String) :=
  [("🏙 Москва", "Moscow"),
   ("🌆 Кейптаун", "Cape Town"),
   ("🗽 Нью-Йорк", "New York"),
   ("🌃 Шанхай", "Shanghai"),
   ("✏️ Другой город", "other"),
   ("🔄 Начать заново", "start")]

/-- `start_command` (bot.py lines 134-153): set mode `city_choice` and emit
the city menu. -/
def start_command (uid chatId : Nat) (m : StateMap) : List Output × StateMap :=
  let (state, m1) := get_user_state m uid
  let m2 := setState m1 uid { state with mode := Mode.city_choice }
  ([Output.sendTextWithButtons chatId "🌍 Выберите город:" cities], m2)

/-- `text_message` (bot.py lines 156-165): free text runs the weather
workflow on the stripped text only in mode `other_city`. -/
def text_message (env : Env) (uid chatId : Nat) (text : String)
    (m : StateMap) : List Output × StateMap :=
  let (state, m1) := get_user_state m uid
  if state.mode = Mode.other_city then
    send_weather env text.trim chatId uid m1
  else ([], m1)

/-- `button_click` (bot.py lines 168-207).  `uid` is `call.from_user.id`, the
clicking user; `msgUid` is `call.message.from_user.id`, the sender of the
message that carries the inline keyboard — under aiogram that sender is the
bot itself, so `msgUid` is the bot's id, distinct from `uid`.  The `"start"`
payload is intercepted before mode dispatch and runs
`start_command(call.message)`, which therefore acts on `msgUid`, not on the
clicking user; in `city_choice`, `"other"` prompts for a city name and any
other payload runs the workflow on the payload itself; in `sun_question`,
`"yes"` renders the stored sunrise/sunset and every non-start payload then
renders the new-request prompt and resets the mode to `city_choice`. -/
def button_click (env : Env) (uid msgUid chatId : Nat) (data : String)
    (m : StateMap) : List Output × StateMap :=
  let (state, m1) := get_user_state m uid
  if data = "start" then start_command msgUid chatId m1
  else if state.mode = Mode.city_choice then
    if data = "other" then
      ([Output.sendText chatId "📝 Введите название города:"],
       setState m1 uid { state with mode := Mode.other_city })
    else send_weather env data chatId uid m1
  else if state.mode = Mode.sun_question then
    ((if data = "yes" then
        [Output.sendText chatId
          ("🌅 Рассвет: " ++ state.sunrise ++ "\n🌇 Закат: " ++ state.sunset)]
      else [])
      ++ [Output.sendTextWithButtons chatId "Хотите сделать новый запрос?"
            [("🔄 Начать заново", "start")]],
     setState m1 uid { state with mode := Mode.city_choice })
  else ([], m1)

/-- The mode recorded for a user, defaulting to the fresh-state mode. -/
def modeOf (m : StateMap) (uid : Nat) : Mode :=
  ((m uid).getD ⟨Mode.greeting, "", ""⟩).mode

/-- Geocoding endpoint that answers 500 for every city. -/
def envGeoFail : Env :=
  ⟨fun _ => ⟨500, []⟩, fun _ _ => ⟨500, ⟨none, none, none, none, none⟩⟩⟩

/-- A state map with user 2 parked in `sun_question`; the bot's own id 1 has
no entry. -/
def mUserSun : StateMap :=
  setState emptyStates 2 ⟨Mode.sun_question, "07:00", "19:00"⟩

/-- C1 (failing input): user 2, parked in `sun_question`, clicks "start" in
chat 1; aiogram delivers `call.from_user.id = 2` and
`call.message.from_user.id = 1` — the keyboard-carrying message was sent by
the bot, so its `from_user` is the bot.  The 6-item city menu is emitted,
but because bot.py line 175 passes `call.message` to `start_command`, the
mode assignment lands on the bot's own state entry: user 2 stays in
`sun_question` while `user_states[1]` is the entry set to `city_choice`. -/
theorem buttonClick_start_misses_user :
    (button_click envGeoFail 2 1 1 "start" mUserSun).1
        = [Output.sendTextWithButtons 1 "🌍 Выберите город:" cities]
      ∧ modeOf (button_click envGeoFail 2 1 1 "start" mUserSun).2 2
          = Mode.sun_question
      ∧ modeOf (button_click envGeoFail 2 1 1 "start" mUserSun).2 1
          = Mode.city_choice
      ∧ cities.map Prod.snd
          = ["Moscow", "Cape Town", "New York", "Shanghai", "other", "start"] := by
  decide

/-- C2: whenever any step of the weather workflow fails, the state map (hence
every user's mode) is unchanged and exactly one failure message carrying the
single "start" retry button is emitted. -/
theorem sendWeather_failure_keeps_mode (env : Env) (city : String)
    (chatId uid : Nat) (m : StateMap) (e : BotError)
    (h : send_weather_try env city chatId uid m = Except.error e) :
    (send_weather env city chatId uid m).2 = m
      ∧ modeOf (send_weather env city chatId uid m).2 uid = modeOf m uid
      ∧ (send_weather env city chatId uid m).1
          = [Output.sendTextWithButtons chatId (errorReply e)
              [("🔄 Попробовать снова", "start")]] := by
  simp [send_weather, h]

/-- Witness for `sendWeather_failure_keeps_mode`: a concrete failing run
(geocoding answers 500). -/
theorem sendWeather_failure_keeps_mode_witness :
    (send_weather envGeoFail "Paris" 1 2 emptyStates).2 = emptyStates
      ∧ modeOf (send_weather envGeoFail "Paris" 1 2 emptyStates).2 2
          = modeOf emptyStates 2
      ∧ (send_weather envGeoFail "Paris" 1 2 emptyStates).1
          = [Output.sendTextWithButtons 1 (errorReply BotError.geoProvider)
              [("🔄 Попробовать снова", "start")]] :=
  sendWeather_failure_keeps_mode envGeoFail "Paris" 1 2 emptyStates
    BotError.geoProvider rfl

/-- Modelled from the claim's words: `round(p * 0.75)` to the nearest
integer, with Python's ties-to-even behaviour at exact halves. -/
def pressureDisplayRounded (p : Nat) : Nat :=
  let q := 3 * p
  if q % 4 < 2 then q / 4
  else if 2 < q % 4 then q / 4 + 1
  else if q / 4 % 2 = 0 then q / 4 else q / 4 + 1

/-- C3 counterexample: at 1013 hPa the code truncates to 759 mmHg while
rounding to the nearest integer would give 760, so the displayed pressure is
not `round(p * 0.75)`. -/
theorem pressure_round_counterexample :
    pressureDisplay 1013 = 759 ∧ pressureDisplayRounded 1013 = 760
      ∧ pressureDisplay 1013 ≠ pressureDisplayRounded 1013 := by decide

/-- C3 (amended): the displayed pressure is the truncation of `p * 0.75`:
it is at most `p * 0.75` and exceeds `p * 0.75 - 1`. -/
theorem pressure_truncates (p : Nat) :
    (pressureDisplay p : ℚ) ≤ (p : ℚ) * 0.75
      ∧ (p : ℚ) * 0.75 - 1 < (pressureDisplay p : ℚ) := by
  have h34 : (0.75 : ℚ) = 3 / 4 := by norm_num
  have h1 : 4 * (3 * p / 4) + 3 * p % 4 = 3 * p := Nat.div_add_mod (3 * p) 4
  have h2 : 3 * p % 4 < 4 := Nat.mod_lt _ (by norm_num)
  have h1Q : (4 : ℚ) * (pressureDisplay p) + ((3 * p % 4 : Nat) : ℚ)
      = 3 * (p : ℚ) := by
    unfold pressureDisplay; exact_mod_cast h1
  have h2Q : ((3 * p % 4 : Nat) : ℚ) < 4 := by exact_mod_cast h2
  have h0Q : (0 : ℚ) ≤ ((3 * p % 4 : Nat) : ℚ) := Nat.cast_nonneg _
  rw [h34]
  constructor <;> linarith

/-- C4: the displayed pressure equals `floor(p * 0.75)`; in particular 1000
hPa shows as 750 mmHg and 1013 hPa as 759 mmHg. -/
theorem pressure_is_floor :
    (∀ p : Nat, pressureDisplay p = Nat.floor ((p : ℚ) * 0.75))
      ∧ pressureDisplay 1000 = 750 ∧ pressureDisplay 1013 = 759 := by
  refine ⟨fun p => ?_, by decide, by decide⟩
  have h : (p : ℚ) * 0.75 = ((3 * p : Nat) : ℚ) / ((4 : Nat) : ℚ) := by
    push_cast; ring_nf
  rw [h, Nat.floor_div_nat, Nat.floor_natCast]
  rfl

/-- C7: the sunrise/sunset formatting of epoch-plus-offset renders zero-padded
24-hour `HH:MM`: epoch 0 with offset 0 gives "00:00" and epoch
`3600 * 5 + 1800` with offset 0 gives "05:30". -/
theorem formatTime_examples :
    formatTime ((0 : Int) + 0) = "00:00"
      ∧ formatTime ((3600 * 5 + 1800 : Int) + 0) = "05:30" := by decide

/-- A geocoding hit used by concrete runs. -/
def geoOk : GeoEntry := ⟨some 56, some 38⟩

/-- A fully-populated weather body used by concrete runs. -/
def bodyOk : WeatherBody :=
  ⟨some [⟨some "01d"⟩], some ⟨some 20, some 1000⟩, some ⟨some 3⟩,
   some ⟨some 19800, some 66600⟩, some 10800⟩

/-- A provider that always succeeds with `geoOk`/`bodyOk`. -/
def envOk : Env := ⟨fun _ => ⟨200, [geoOk]⟩, fun _ _ => ⟨200, bodyOk⟩⟩

/-- C5: on a successful geocode and weather fetch the workflow emits the icon
photo, then the metrics message, then the yes/no prompt, in that order, and
stores the formatted sunrise/sunset with mode `sun_question` into the user's
state. -/
theorem sendWeather_success (env : Env) (city : String) (chatId uid : Nat)
    (m : StateMap) (ge : GeoEntry) (rest : List GeoEntry) (la lo : Int)
    (body : WeatherBody) (we : WeatherEntry) (wrest : List WeatherEntry)
    (hgeo : env.geo city = ⟨200, ge :: rest⟩)
    (hla : ge.lat = some la) (hlo : ge.lon = some lo)
    (hw : env.weather la lo = ⟨200, body⟩)
    (hwl : body.weather = some (we :: wrest)) :
    send_weather env city chatId uid m
      = ([Output.sendPhoto chatId (iconUrl body),
          Output.sendText chatId (weatherMessage body),
          Output.sendTextWithButtons chatId
            "Показать время рассвета и заката?" sunKeyboard],
         setState (get_user_state m uid).2 uid
           ⟨Mode.sun_question, sunriseOf body, sunsetOf body⟩)
      ∧ (send_weather env city chatId uid m).2 uid
          = some ⟨Mode.sun_question, sunriseOf body, sunsetOf body⟩ := by
  have h : send_weather env city chatId uid m
      = ([Output.sendPhoto chatId (iconUrl body),
          Output.sendText chatId (weatherMessage body),
          Output.sendTextWithButtons chatId
            "Показать время рассвета и заката?" sunKeyboard],
         setState (get_user_state m uid).2 uid
           ⟨Mode.sun_question, sunriseOf body, sunsetOf body⟩) := by
    simp [send_weather, send_weather_try, fetch_geo_data, fetch_weather_data,
      hgeo, hla, hlo, hw, hwl]
  exact ⟨h, by rw [h]; simp [setState]⟩

/-- Witness for `sendWeather_success`: a concrete fully-successful run. -/
theorem sendWeather_success_witness :
    send_weather envOk "Moscow" 1 2 emptyStates
      = ([Output.sendPhoto 1 (iconUrl bodyOk),
          Output.sendText 1 (weatherMessage bodyOk),
          Output.sendTextWithButtons 1
            "Показать время рассвета и заката?" sunKeyboard],
         setState (get_user_state emptyStates 2).2 2
           ⟨Mode.sun_question, sunriseOf bodyOk, sunsetOf bodyOk⟩)
      ∧ (send_weather envOk "Moscow" 1 2 emptyStates).2 2
          = some ⟨Mode.sun_question, sunriseOf bodyOk, sunsetOf bodyOk⟩ :=
  sendWeather_success envOk "Moscow" 1 2 emptyStates geoOk [] 56 38 bodyOk
    ⟨some "01d"⟩ [] rfl rfl rfl rfl rfl

/-- C6: the geocode step fails with the not-found error exactly when a
successful HTTP response carries an empty result array, and with the
provider error whenever the status is not 200; the workflow converts every
raised error into exactly one of the two user-facing messages, choosing the
not-found text if and only if the error is the not-found one, and always
returns normally (it is a total function, so no error escapes it). -/
theorem geo_error_classification :
    (∀ resp : HttpResp (List GeoEntry), resp.status = 200 →
        (fetch_geo_data resp = Except.error BotError.notFound ↔ resp.body = []))
  ∧ (∀ resp : HttpResp (List GeoEntry), resp.status ≠ 200 →
        fetch_geo_data resp = Except.error BotError.geoProvider)
  ∧ (∀ (env : Env) (city : String) (chatId uid : Nat) (m : StateMap)
        (e : BotError),
      send_weather_try env city chatId uid m = Except.error e →
        (send_weather env city chatId uid m).1
            = [Output.sendTextWithButtons chatId (errorReply e)
                [("🔄 Попробовать снова", "start")]]
          ∧ ((errorReply e = "🏙 Город не найден, попробуйте другой")
              ↔ e = BotError.notFound)
          ∧ (errorReply e = "🏙 Город не найден, попробуйте другой"
              ∨ errorReply e = "😢 Что-то пошло не так. Попробуйте другой город")) := by
  refine ⟨?_, ?_, ?_⟩
  · intro resp h200
    cases hb : resp.body <;> simp [fetch_geo_data, h200, hb]
  · intro resp hne
    simp [fetch_geo_data, hne]
  · intro env city chatId uid m e h
    exact ⟨by simp [send_weather, h], by cases e <;> decide, by cases e <;> decide⟩

/-- Witness for `geo_error_classification`: concrete responses exercising the
empty-array case, the bad-status case and a failing workflow run. -/
theorem geo_error_classification_witness :
    fetch_geo_data ⟨200, ([] : List GeoEntry)⟩ = Except.error BotError.notFound
      ∧ fetch_geo_data ⟨500, ([] : List GeoEntry)⟩
          = Except.error BotError.geoProvider
      ∧ (send_weather envGeoFail "Oslo" 1 2 emptyStates).1
          = [Output.sendTextWithButtons 1 (errorReply BotError.geoProvider)
              [("🔄 Попробовать снова", "start")]] :=
  ⟨(geo_error_classification.1 ⟨200, []⟩ rfl).mpr rfl,
   geo_error_classification.2.1 ⟨500, []⟩ (by decide),
   (geo_error_classification.2.2 envGeoFail "Oslo" 1 2 emptyStates
      BotError.geoProvider rfl).1⟩

/-- C8: in mode `sun_question`, a "yes" click emits the stored sunrise and
sunset (both occur inside the emitted text) followed by the new-request
prompt; any other non-"start" payload emits only the prompt; in both cases
the user's mode becomes `city_choice`. -/
theorem sunQuestion_click (env : Env) (uid msgUid chatId : Nat) (m : StateMap)
    (s : BotState) (data : String)
    (hs : m uid = some s) (hmode : s.mode = Mode.sun_question)
    (hstart : data ≠ "start") :
    (data = "yes" →
        (button_click env uid msgUid chatId data m).1
          = [Output.sendText chatId
              ("🌅 Рассвет: " ++ s.sunrise ++ "\n🌇 Закат: " ++ s.sunset),
             Output.sendTextWithButtons chatId "Хотите сделать новый запрос?"
               [("🔄 Начать заново", "start")]]
          ∧ List.IsInfix s.sunrise.data
              ("🌅 Рассвет: " ++ s.sunrise ++ "\n🌇 Закат: " ++ s.sunset).data
          ∧ List.IsInfix s.sunset.data
              ("🌅 Рассвет: " ++ s.sunrise ++ "\n🌇 Закат: " ++ s.sunset).data)
      ∧ (data ≠ "yes" →
        (button_click env uid msgUid chatId data m).1
          = [Output.sendTextWithButtons chatId "Хотите сделать новый запрос?"
              [("🔄 Начать заново", "start")]])
      ∧ modeOf (button_click env uid msgUid chatId data m).2 uid = Mode.city_choice := by
  refine ⟨?_, ?_, ?_⟩
  · intro hy
    subst hy
    refine ⟨by simp [button_click, get_user_state, hs, hmode, hstart], ?_, ?_⟩
    · exact ⟨("🌅 Рассвет: ").data, ("\n🌇 Закат: " ++ s.sunset).data, by
        simp [String.data_append, List.append_assoc]⟩
    · exact ⟨("🌅 Рассвет: " ++ s.sunrise ++ "\n🌇 Закат: ").data, [], by
        simp [String.data_append, List.append_assoc]⟩
  · intro hy
    simp [button_click, get_user_state, hs, hmode, hstart, hy]
  · simp [button_click, get_user_state, hs, hmode, hstart, modeOf, setState]

/-- A state map holding one user parked in `sun_question` with stored
sunrise/sunset strings. -/
def mSun : StateMap :=
  setState emptyStates 2 ⟨Mode.sun_question, "06:10", "18:20"⟩

/-- Witness for `sunQuestion_click`: the concrete "yes" click. -/
theorem sunQuestion_click_witness :
    (("yes" : String) = "yes" →
        (button_click envGeoFail 2 1 1 "yes" mSun).1
          = [Output.sendText 1
              ("🌅 Рассвет: " ++ "06:10" ++ "\n🌇 Закат: " ++ "18:20"),
             Output.sendTextWithButtons 1 "Хотите сделать новый запрос?"
               [("🔄 Начать заново", "start")]]
          ∧ List.IsInfix ("06:10" : String).data
              ("🌅 Рассвет: " ++ "06:10" ++ "\n🌇 Закат: " ++ "18:20").data
          ∧ List.IsInfix ("18:20" : String).data
              ("🌅 Рассвет: " ++ "06:10" ++ "\n🌇 Закат: " ++ "18:20").data)
      ∧ (("yes" : String) ≠ "yes" →
        (button_click envGeoFail 2 1 1 "yes" mSun).1
          = [Output.sendTextWithButtons 1 "Хотите сделать новый запрос?"
              [("🔄 Начать заново", "start")]])
      ∧ modeOf (button_click envGeoFail 2 1 1 "yes" mSun).2 2
          = Mode.city_choice :=
  sunQuestion_click envGeoFail 2 1 1 mSun
    ⟨Mode.sun_question, "06:10", "18:20"⟩ "yes" rfl rfl (by decide)

/-- C9: in mode `city_choice`, any payload other than "start" and "other" is
passed verbatim to the weather workflow as the city name — the click handler
behaves exactly like `send_weather` on that payload, even for payloads such
as "yes" or "no". -/
theorem cityChoice_any_payload (env : Env) (uid msgUid chatId : Nat) (m : StateMap)
    (s : BotState) (data : String)
    (hs : m uid = some s) (hmode : s.mode = Mode.city_choice)
    (h1 : data ≠ "start") (h2 : data ≠ "other") :
    button_click env uid msgUid chatId data m = send_weather env data chatId uid m := by
  simp [button_click, get_user_state, hs, hmode, h1, h2]

/-- A state map holding one user in `city_choice`. -/
def mCity : StateMap := setState emptyStates 2 ⟨Mode.city_choice, "", ""⟩

/-- Witness for `cityChoice_any_payload`: the stray payload "yes" is treated
as a city name. -/
theorem cityChoice_any_payload_witness :
    button_click envGeoFail 2 1 1 "yes" mCity
      = send_weather envGeoFail "yes" 1 2 mCity :=
  cityChoice_any_payload envGeoFail 2 1 1 mCity ⟨Mode.city_choice, "", ""⟩ "yes"
    rfl rfl (by decide) (by decide)

/-- C10: an HTTP-200 weather body without a `weather` array (or with an empty
one) takes the generic failure path with the state untouched, while the
empty-icon default applies only when the first weather entry exists but has
no `icon` field — then the photo URL is built from the empty string. -/
theorem missing_weather_fails :
    (∀ (env : Env) (city : String) (chatId uid : Nat) (m : StateMap)
        (ge : GeoEntry) (rest : List GeoEntry) (la lo : Int)
        (body : WeatherBody),
      env.geo city = ⟨200, ge :: rest⟩ → ge.lat = some la → ge.lon = some lo →
      env.weather la lo = ⟨200, body⟩ →
      (body.weather = none ∨ body.weather = some []) →
        (send_weather env city chatId uid m).1
            = [Output.sendTextWithButtons chatId
                "😢 Что-то пошло не так. Попробуйте другой город"
                [("🔄 Попробовать снова", "start")]]
          ∧ (send_weather env city chatId uid m).2 = m)
  ∧ (∀ (env : Env) (city : String) (chatId uid : Nat) (m : StateMap)
        (ge : GeoEntry) (rest : List GeoEntry) (la lo : Int)
        (body : WeatherBody) (we : WeatherEntry) (wrest : List WeatherEntry),
      env.geo city = ⟨200, ge :: rest⟩ → ge.lat = some la → ge.lon = some lo →
      env.weather la lo = ⟨200, body⟩ → body.weather = some (we :: wrest) →
      we.icon = none →
        (send_weather env city chatId uid m).1.head?
          = some (Output.sendPhoto chatId
              "http://openweathermap.org/img/wn/@4x.png")) := by
  constructor
  · intro env city chatId uid m ge rest la lo body hgeo hla hlo hw hmiss
    have herr : ∃ e, send_weather_try env city chatId uid m = Except.error e
        ∧ errorReply e = "😢 Что-то пошло не так. Попробуйте другой город" := by
      rcases hmiss with hm | hm
      · exact ⟨BotError.keyWeather, by
          simp [send_weather_try, fetch_geo_data, fetch_weather_data,
            hgeo, hla, hlo, hw, hm], by decide⟩
      · exact ⟨BotError.indexError, by
          simp [send_weather_try, fetch_geo_data, fetch_weather_data,
            hgeo, hla, hlo, hw, hm], by decide⟩
    rcases herr with ⟨e, he, hrep⟩
    simp [send_weather, he, hrep]
  · intro env city chatId uid m ge rest la lo body we wrest hgeo hla hlo hw
      hwl hicon
    have hurl : iconUrl body = "http://openweathermap.org/img/wn/@4x.png" := by
      simp [iconUrl, hwl, hicon]
    have h : send_weather env city chatId uid m
        = ([Output.sendPhoto chatId (iconUrl body),
            Output.sendText chatId (weatherMessage body),
            Output.sendTextWithButtons chatId
              "Показать время рассвета и заката?" sunKeyboard],
           setState (get_user_state m uid).2 uid
             ⟨Mode.sun_question, sunriseOf body, sunsetOf body⟩) := by
      simp [send_weather, send_weather_try, fetch_geo_data, fetch_weather_data,
        hgeo, hla, hlo, hw, hwl]
    rw [h, hurl]
    rfl

/-- A weather body with no `weather` key at all. -/
def bodyNoWeather : WeatherBody := ⟨none, none, none, none, none⟩

/-- A provider whose weather body lacks the `weather` key. -/
def envNoWeather : Env :=
  ⟨fun _ => ⟨200, [geoOk]⟩, fun _ _ => ⟨200, bodyNoWeather⟩⟩

/-- A weather body whose first weather entry has no `icon` field. -/
def bodyNoIcon : WeatherBody := ⟨some [⟨none⟩], none, none, none, none⟩

/-- A provider whose first weather entry lacks the `icon` field. -/
def envNoIcon : Env :=
  ⟨fun _ => ⟨200, [geoOk]⟩, fun _ _ => ⟨200, bodyNoIcon⟩⟩

/-- Witness for `missing_weather_fails`: one run with the `weather` key
missing and one with the icon field missing. -/
theorem missing_weather_fails_witness :
    ((send_weather envNoWeather "Lima" 1 2 emptyStates).1
        = [Output.sendTextWithButtons 1
            "😢 Что-то пошло не так. Попробуйте другой город"
            [("🔄 Попробовать снова", "start")]]
      ∧ (send_weather envNoWeather "Lima" 1 2 emptyStates).2 = emptyStates)
    ∧ (send_weather envNoIcon "Lima" 1 2 emptyStates).1.head?
        = some (Output.sendPhoto 1
            "http://openweathermap.org/img/wn/@4x.png") :=
  ⟨missing_weather_fails.1 envNoWeather "Lima" 1 2 emptyStates geoOk [] 56 38
      bodyNoWeather rfl rfl rfl rfl (Or.inl rfl),
   missing_weather_fails.2 envNoIcon "Lima" 1 2 emptyStates geoOk [] 56 38
      bodyNoIcon ⟨none⟩ [] rfl rfl rfl rfl rfl rfl⟩
